import Mathlib

/-!
Verification of the Dvivid-Psychometric-Test scoring and report routes.

This file shallowly embeds the data-shaping logic of the two HTTP handlers
(src/app/api/analyze-results/route.ts and src/app/api/generate-pdf/route.ts)
and settles the frozen claims about them.  JavaScript values that the code
inspects for truthiness are modelled by the inductive type `JVal` (with an
explicit `undef` constructor for JS `undefined`); machine numbers are
modelled by `Int`/`Rat` with JS `Math.round` written as floor of x + 1/2.
-/

/-- JS values appearing in the parsed JSON payloads.  `jundefined` models the JS
`undefined` produced by a missing property access; `jnull` is JSON `null`.
Numbers are exact rationals (the payloads in question hold small scores). -/
inductive JVal where
  | jundefined
  | jnull
  | jbool (b : Bool)
  | jnum (q : ℚ)
  | jstr (s : String)
  | jarr (xs : List JVal)
  | jobj (fields : List (String × JVal))

/-- JS truthiness: `undefined`, `null`, `false`, `0`, and `""` are falsy;
every object and array (including `[]` and the empty object) is truthy. -/
def truthy : JVal → Bool
  | .jundefined => false
  | .jnull => false
  | .jbool b => b
  | .jnum q => !(q == 0)
  | .jstr s => !(s == "")
  | .jarr _ => true
  | .jobj _ => true

/-- Property lookup on a JS object literal: the last binding of a duplicated
key wins (as with JSON.parse), and a missing key yields `undefined`. -/
def jsLookup (o : List (String × JVal)) (k : String) : Option JVal :=
  (o.reverse).lookup k

/-- `o[k]` in JS: the stored value, or `undefined` when the key is absent. -/
def getField (o : List (String × JVal)) (k : String) : JVal :=
  match jsLookup o k with
  | some v => v
  | none => .jundefined

/-- JS `a || b`: the first operand when it is truthy, otherwise the second. -/
def jsOr (a b : JVal) : JVal :=
  if truthy a then a else b

/-- JS `v === undefined`. -/
def isUndefined : JVal → Bool
  | .jundefined => true
  | _ => false

/-! ### C1 — the per-score interpretation ladder (analyze-results route)

The analyze-results handler contains exactly one executable classification
ladder, the nested conditional building the per-dimension `Interpretation`
line of the prompt:

  score >= 90 ? 'Excellent' : score >= 80 ? 'Very Good' : score >= 70 ?
  'Good' : score >= 60 ? 'Satisfactory' : 'Needs Improvement'
-/

/-- The executable ladder of the analyze-results route (the nested ternary
computing `Interpretation`).  Note the final catch-all arm: every score
below 60 gets the label "Needs Improvement"; no Low label exists. -/
def interpretLabel (score : Int) : String :=
  if score ≥ 90 then "Excellent"
  else if score ≥ 80 then "Very Good"
  else if score ≥ 70 then "Good"
  else if score ≥ 60 then "Satisfactory"
  else "Needs Improvement"

/-- The six-level READINESS LEVELS ladder documented in the system prompt of
the same route ("90-100: Excellent ... 50-59: Needs Improvement,
<50: Low Readiness").  This is the route's own documentation of the
intended tier classification, transcribed from the prompt text. -/
def promptReadinessLevel (idx : Int) : String :=
  if 90 ≤ idx then "Excellent"
  else if 80 ≤ idx then "Very Good"
  else if 70 ≤ idx then "Good"
  else if 60 ≤ idx then "Satisfactory"
  else if 50 ≤ idx then "Needs Improvement"
  else "Low Readiness"

/-! ### C5 — per-category percentage (analyze-results route)

`const score = Math.round((topic.correct/topic.total)*100);`
performs no validation at all.  JS `Math.round x` is `⌊x + 1/2⌋`
(round half toward positive infinity); the division is modelled exactly
over the rationals. -/

/-- The per-category percentage exactly as the route computes it:
round-half-up of `correct/total * 100`, with no validity check on the
inputs. -/
def categoryScore (correct total : ℚ) : ℤ :=
  ⌊correct / total * 100 + 1 / 2⌋

/-! ### C2 — country-fit match percentage (generate-pdf route)

`generateCountryMatrix` / `generateCountryCard` compute, for the entry at
0-based position `index`:

  typeof countryData === 'string' ? Math.round(100 - (index * 15))
                                  : countryData.match || 100
-/

/-- A country-fit entry as the assembler receives it: either the old bare
string format or the object format, whose `match` field may be absent. -/
inductive CountryData where
  | str (s : String)
  | obj (country : String) (matchPercent : Option Int)
        (reasoning : Option String) (challenges : Option String)

/-- The displayed match percentage for the entry at 0-based `index`
(rank = index + 1).  A bare-string entry gets the rank formula
`100 - index * 15` (Math.round is the identity on integers); an object
entry gets `countryData.match || 100`, so a missing or zero match falls
back to the constant 100 regardless of rank. -/
def countryMatchScore (cd : CountryData) (index : Nat) : Int :=
  match cd with
  | .str _ => 100 - ((index : Int) * 15)
  | .obj _ m _ _ =>
    match m with
    | some v => if v = 0 then 100 else v
    | none => 100

/-- One rendered row of the country readiness matrix. -/
structure CountryRow where
  rank : Nat
  name : String
  score : Int
  desc : String

/-- The country name displayed for an entry. -/
def countryName : CountryData → String
  | .str s => s
  | .obj c _ _ _ => c

/-- The description displayed for an entry
(`countryData.reasoning || 'Good study destination'` on the object path). -/
def countryDesc : CountryData → String
  | .str _ => "Well-suited destination for study abroad"
  | .obj _ _ r _ =>
    match r with
    | some s => if s = "" then "Good study destination" else s
    | none => "Good study destination"

/-- `generateCountryMatrix`: each entry becomes a row with rank
`index + 1`, the name, the match score and the description. -/
def generateCountryMatrix (countries : List CountryData) : List CountryRow :=
  countries.enum.map (fun p => ⟨p.1 + 1, countryName p.2, countryMatchScore p.2 p.1, countryDesc p.2⟩)

/-! ## Theorems for C1, C2, C5 -/

/-- Claim C1: the claim states the six-tier ladder of the prompt's
READINESS LEVELS table, under which every index below 50 is Low.  The
route's only executable ladder (the `Interpretation` ternary) labels 40 as
"Needs Improvement", while the prompt's own documented ladder labels 40 as
"Low Readiness"; indeed the executable ladder can only ever produce one of
five labels, none of them a Low tier.  The code contradicts its own
documentation below 50. -/
theorem c1_ladder_drops_low_tier :
    interpretLabel 40 = "Needs Improvement" ∧
    promptReadinessLevel 40 = "Low Readiness" ∧
    ∀ s : Int, interpretLabel s ∈
      ["Excellent", "Very Good", "Good", "Satisfactory", "Needs Improvement"] := by
  refine ⟨by decide, by decide, ?_⟩
  intro s
  unfold interpretLabel
  repeat' split
  all_goals simp

/-- Claim C2 counterexample: an object-format entry whose `matchPercent` is
missing, placed at 0-based index 1 (rank 2), is assigned 100 — not the
rank fallback `100 - 15*(rank-1) = 85` the claim asserts for every entry
missing a matchPercent. -/
theorem c2_counterexample_object_entry :
    countryMatchScore (.obj "Canada" none none none) 1 = 100 ∧
    ((countryMatchScore (.obj "Canada" none none none) 1 == 100 - 15 * 1) = false) := by
  constructor
  · rfl
  · decide

/-- Claim C2 (amended): only a bare-string entry (which by its format
carries no matchPercent) receives the deterministic rank fallback
`100 - 15*index`, and those fallback values are strictly decreasing in the
rank; an object entry with a missing matchPercent instead receives the
constant fallback 100 at every rank. -/
theorem c2_string_fallback_decreasing (name : String) (i : Nat) :
    countryMatchScore (.str name) i = 100 - ((i : Int) * 15) ∧
    countryMatchScore (.str name) (i + 1) < countryMatchScore (.str name) i ∧
    ∀ c r ch, countryMatchScore (.obj c none r ch) i = 100 := by
  refine ⟨rfl, ?_, fun _ _ _ => rfl⟩
  show 100 - (((i : Int) + 1) * 15) < 100 - ((i : Int) * 15)
  omega

/-- Claim C5 counterexample: the route performs no input validation; the
category result `correct = 6, total = 5` that the claim says is rejected
with InvalidInput is instead normalized to 120 (`categoryScore` is a total
function — there is no error path in the source at all). -/
theorem c5_counterexample_no_validation : categoryScore 6 5 = 120 := by
  unfold categoryScore
  rw [show (6 : ℚ) / 5 * 100 + 1 / 2 = 241 / 2 by norm_num]
  rw [Int.floor_eq_iff]
  norm_num

/-- Claim C5 (amended): normalization performs no validation whatsoever
(invalid inputs such as correct=6,total=5 produce out-of-range values
rather than an InvalidInput failure), but on every valid input
(0 ≤ correct ≤ total, 0 < total) it returns round-half-up of
`100 * correct / total`, an integer in [0, 100]. -/
theorem c5_valid_inputs_in_range (c t : ℚ) (h0 : 0 ≤ c) (h1 : c ≤ t) (h2 : 0 < t) :
    categoryScore c t = ⌊c / t * 100 + 1 / 2⌋ ∧
    0 ≤ categoryScore c t ∧ categoryScore c t ≤ 100 := by
  refine ⟨rfl, ?_, ?_⟩
  · have hx : (0 : ℚ) ≤ c / t * 100 + 1 / 2 := by positivity
    exact Int.le_floor.mpr (by exact_mod_cast hx)
  · have hdiv : c / t ≤ 1 := (div_le_one h2).mpr h1
    have hx : c / t * 100 + 1 / 2 < 101 := by nlinarith
    have : categoryScore c t < 101 := Int.floor_lt.mpr (by exact_mod_cast hx)
    omega

/-- Witness for C5 (amended) at correct = 3, total = 4. -/
theorem c5_valid_inputs_in_range_witness :
    0 ≤ categoryScore 3 4 ∧ categoryScore 3 4 ≤ 100 :=
  ⟨(c5_valid_inputs_in_range 3 4 (by norm_num) (by norm_num) (by norm_num)).2.1,
   (c5_valid_inputs_in_range 3 4 (by norm_num) (by norm_num) (by norm_num)).2.2⟩

/-! ### C6 / C7 — narrative bullet-point normalization (generate-pdf route)

`formatToBulletPoints` accepts `string | string[] | undefined`:
  - a falsy input (undefined or the empty string) yields the single
    placeholder "Information not available";
  - an array is mapped element-wise through `item.trim()` (arrays,
    including the empty array, are truthy in JS);
  - a string equal to one of three sentinel phrases yields the placeholder;
  - any other string is split on runs of sentence punctuation, falling back
    to runs of commas/semicolons when that yields at most one non-blank
    fragment, and each fragment is trimmed and has a leading
    digits-dot-whitespace enumeration marker removed. -/

/-- A narrative field as received: absent, a single string, or a list. -/
inductive Narrative where
  | absent
  | str (s : String)
  | arr (xs : List String)

/-- Characters treated as whitespace by the trim operations. -/
def isWsChar (c : Char) : Bool := c.isWhitespace

/-- JS `String.prototype.trim` on the character list. -/
def trimChars (cs : List Char) : List Char :=
  ((cs.dropWhile isWsChar).reverse.dropWhile isWsChar).reverse

/-- JS `s.trim()`. -/
def jsTrim (s : String) : String := ⟨trimChars s.data⟩

/-- JS `s.split(re)` for a regex matching maximal runs of the delimiter
class `p` (such as `[.!?]+` or `[,;]+`): each maximal delimiter run is one
split point, and empty leading/trailing pieces are kept. -/
def splitRuns (p : Char → Bool) : List Char → List (List Char)
  | [] => [[]]
  | c :: rest =>
    let r := splitRuns p rest
    if p c then
      match rest with
      | c2 :: _ => if p c2 then r else [] :: r
      | [] => [] :: r
    else
      match r with
      | h :: t => (c :: h) :: t
      | [] => [[c]]

/-- Sentence-ending punctuation class of the first split regex. -/
def isSentencePunct (c : Char) : Bool := c = '.' || c = '!' || c = '?'

/-- Comma/semicolon class of the fallback split regex. -/
def isListPunct (c : Char) : Bool := c = ',' || c = ';'

/-- The regex replace of a leading enumeration marker:
`point.replace(/^\d+\.?\s*/, '')` — at least one leading digit, an
optional dot, then any whitespace; a string not starting with a digit is
unchanged. -/
def stripLeadingEnum : List Char → List Char
  | [] => []
  | c :: rest =>
    if c.isDigit then
      let ds := rest.dropWhile Char.isDigit
      let ds2 := match ds with
        | '.' :: r => r
        | _ => ds
      ds2.dropWhile isWsChar
    else c :: rest

/-- `formatToBulletPoints`, returning the list of bullet entries (the text
placed inside each list item of the rendered section). -/
def formatToBulletPoints : Narrative → List String
  | .absent => ["Information not available"]
  | .arr xs => xs.map jsTrim
  | .str s =>
    if s == "" then ["Information not available"]
    else if s == "No strengths identified" || s == "No gaps identified"
            || s == "No recommendations provided" then
      ["Information not available"]
    else
      let sentences := (splitRuns isSentencePunct s.data).filter
        (fun f => 0 < (trimChars f).length)
      let points :=
        if 1 < sentences.length then sentences
        else (splitRuns isListPunct s.data).filter (fun f => 0 < (trimChars f).length)
      points.map (fun p => ⟨stripLeadingEnum (trimChars p)⟩)

/-! ### C8 — attachment filename (generate-pdf route)

`(name).replace(/\s+/g, '-').toLowerCase()` — only runs of whitespace are
collapsed to a single hyphen; every other character, alphanumeric or not,
is kept as-is (then ASCII-lowercased). -/

/-- `replace(/\s+/g, '-')`: each maximal whitespace run becomes one
hyphen. -/
def collapseWs : List Char → List Char
  | [] => []
  | [c] => if isWsChar c then ['-'] else [c]
  | c :: c2 :: rest =>
    if isWsChar c then
      if isWsChar c2 then collapseWs (c2 :: rest)
      else '-' :: collapseWs (c2 :: rest)
    else c :: collapseWs (c2 :: rest)

/-- The sanitized base name inserted into the attachment filename. -/
def sanitizeBaseName (name : String) : String :=
  ⟨(collapseWs name.data).map Char.toLower⟩

/-- The full Content-Disposition filename built by the route. -/
def attachmentFileName (name : String) : String :=
  "psychometric-report-" ++ sanitizeBaseName name ++ ".pdf"

/-- The property the claim asserts of the output: no two adjacent
non-alphanumeric characters (every non-alphanumeric run collapsed to a
single separator). -/
def noAdjacentNonAlnum : List Char → Bool
  | [] => true
  | [_] => true
  | a :: b :: rest => !((!a.isAlphanum) && (!b.isAlphanum)) && noAdjacentNonAlnum (b :: rest)

/-! ### C9 — model fallback loop (analyze-results route)

`for (const model of ["sonar-pro", "sonar"]) { try ... break } ` with
`lastError` recorded on each failure, and after the loop
`if (!completion) throw new Error("All models failed. Last error: " + ...)`.
The outcome of one bounded attempt (including its 45-second timeout being
treated as a failure) is abstracted as `attempt model : Except String C`. -/

/-- The loop body: try each model in order, keeping the last error. -/
def tryModelsAux {C : Type} (attempt : String → Except String C) :
    List String → Option String → Except String C
  | [], lastError =>
    .error ("All models failed. Last error: " ++ lastError.getD "Unknown error")
  | m :: rest, _lastError =>
    match attempt m with
    | .ok c => .ok c
    | .error e => tryModelsAux attempt rest (some e)

/-- The route's call sequence over the fixed model list. -/
def tryModels {C : Type} (attempt : String → Except String C) : Except String C :=
  tryModelsAux attempt ["sonar-pro", "sonar"] none

/-! ## Theorems for C6, C7, C8, C9 -/

/-- Claim C6 counterexample: the empty sequence is a truthy JS array, so it
bypasses the placeholder branch and maps to the empty bullet list — the
rendered section is blank, with no placeholder entry. -/
theorem c6_counterexample_empty_array :
    formatToBulletPoints (.arr []) = [] ∧
    ((formatToBulletPoints (.arr []) == ["Information not available"]) = false) :=
  ⟨rfl, by decide⟩

/-- Claim C6 (amended): an absent narrative field or an empty string yields
the single placeholder entry, but an empty sequence yields the empty list
(arrays are truthy), so the rendered section can be blank in that case. -/
theorem c6_placeholder_only_for_falsy :
    formatToBulletPoints .absent = ["Information not available"] ∧
    formatToBulletPoints (.str "") = ["Information not available"] ∧
    formatToBulletPoints (.arr []) = [] :=
  ⟨rfl, by decide, rfl⟩

/-- Claim C7 counterexample: on the sequence path each element is only
trimmed; a leading enumeration marker is NOT stripped (the
digits-dot-whitespace replace exists only on the string-splitting path). -/
theorem c7_counterexample_marker_kept :
    formatToBulletPoints (.arr ["1. Improve budgeting"]) = ["1. Improve budgeting"] ∧
    ((formatToBulletPoints (.arr ["1. Improve budgeting"]) == ["Improve budgeting"]) = false) :=
  ⟨by decide, by decide⟩

/-- Claim C7 (amended): normalizing a sequence keeps each element as one
entry with only its surrounding whitespace trimmed (no re-splitting on
punctuation or commas, and no stripping of enumeration markers); hence on
sequences whose entries carry no surrounding whitespace the normalization
is the identity, i.e. idempotent. -/
theorem c7_sequence_normalization_trim_only (xs : List String) :
    formatToBulletPoints (.arr xs) = xs.map jsTrim ∧
    ((∀ s ∈ xs, jsTrim s = s) → formatToBulletPoints (.arr xs) = xs) := by
  refine ⟨rfl, fun h => ?_⟩
  show xs.map jsTrim = xs
  induction xs with
  | nil => rfl
  | cons a as ih =>
    simp only [List.map_cons, h a (by simp)]
    rw [ih (fun s hs => h s (by simp [hs]))]

/-- Witness for C7 (amended) on a concrete already-split sequence. -/
theorem c7_sequence_normalization_trim_only_witness :
    formatToBulletPoints (.arr ["Strong budgeting", "Clear goals"])
      = ["Strong budgeting", "Clear goals"] :=
  (c7_sequence_normalization_trim_only ["Strong budgeting", "Clear goals"]).2 (by decide)

/-- ASCII lowercasing never turns a non-whitespace character into
whitespace. -/
theorem toLower_not_ws (c : Char) (h : c.isWhitespace = false) :
    (c.toLower).isWhitespace = false := by
  simp only [Char.toLower]
  split
  · rename_i hn
    obtain ⟨h1, h2⟩ := hn
    generalize hg : c.toNat = n at h1 h2 ⊢
    interval_cases n <;> decide
  · exact h

/-- Collapsing whitespace runs leaves no whitespace in the output: every
output character is either a hyphen or a non-whitespace input character. -/
theorem collapseWs_no_ws :
    ∀ cs : List Char, (collapseWs cs).all (fun c => !c.isWhitespace) = true := by
  intro cs
  induction cs with
  | nil => rfl
  | cons c rest ih =>
    cases rest with
    | nil =>
      by_cases h : isWsChar c
      · simp [collapseWs, h]
      · simp only [collapseWs, h, if_false, List.all_cons, List.all_nil, Bool.and_true]
        simpa [isWsChar] using h
    | cons c2 rest2 =>
      by_cases h : isWsChar c
      · by_cases h2 : isWsChar c2
        · simpa [collapseWs, h, h2] using ih
        · simp only [collapseWs, h, h2, if_true, if_false, List.all_cons]
          refine (Bool.and_eq_true _ _).mpr ⟨by decide, ih⟩
      · simp only [collapseWs, h, if_false, List.all_cons]
        refine (Bool.and_eq_true _ _).mpr ⟨?_, ih⟩
        simpa [isWsChar] using h

/-- Claim C8 counterexample: a name containing a run of two underscores —
non-alphanumeric, non-whitespace — keeps the run verbatim in the
attachment base name, so non-alphanumeric runs are not collapsed to a
single separator. -/
theorem c8_counterexample_underscores :
    sanitizeBaseName "A__B" = "a__b" ∧
    noAdjacentNonAlnum (sanitizeBaseName "A__B").data = false :=
  ⟨by decide, by decide⟩

/-- Claim C8 (amended): the attachment base name collapses every run of
WHITESPACE characters to a single hyphen and lowercases the result; all
other non-alphanumeric characters are preserved unchanged.  Consequently
the sanitized name never contains whitespace. -/
theorem c8_whitespace_runs_collapsed (name : String) :
    sanitizeBaseName name = ⟨(collapseWs name.data).map Char.toLower⟩ ∧
    (sanitizeBaseName name).data.all (fun c => !c.isWhitespace) = true ∧
    sanitizeBaseName "John  Doe" = "john-doe" ∧
    attachmentFileName "John  Doe" = "psychometric-report-john-doe.pdf" ∧
    sanitizeBaseName "A_B!" = "a_b!" := by
  refine ⟨rfl, ?_, by decide, by decide, by decide⟩
  show ((collapseWs name.data).map Char.toLower).all (fun c => !c.isWhitespace) = true
  have h := collapseWs_no_ws name.data
  rw [List.all_eq_true] at h
  rw [List.all_eq_true]
  intro c hc
  rw [List.mem_map] at hc
  obtain ⟨x, hx, rfl⟩ := hc
  have hxw := h x hx
  simp only [Bool.not_eq_true'] at hxw ⊢
  exact toLower_not_ws x hxw

/-- Claim C9: the route tries the primary model "sonar-pro" first; if and
only if that attempt fails does it try the single fallback "sonar"; and if
and only if both attempts fail does it surface the aggregate failure,
which carries the LAST underlying error. -/
theorem c9_primary_then_single_fallback {C : Type} (attempt : String → Except String C) :
    (∀ c, attempt "sonar-pro" = .ok c → tryModels attempt = .ok c) ∧
    (∀ e c, attempt "sonar-pro" = .error e → attempt "sonar" = .ok c →
      tryModels attempt = .ok c) ∧
    (∀ e1 e2, attempt "sonar-pro" = .error e1 → attempt "sonar" = .error e2 →
      tryModels attempt = .error ("All models failed. Last error: " ++ e2)) := by
  refine ⟨?_, ?_, ?_⟩
  · intro c h
    simp [tryModels, tryModelsAux, h]
  · intro e c h1 h2
    simp [tryModels, tryModelsAux, h1, h2]
  · intro e1 e2 h1 h2
    simp [tryModels, tryModelsAux, h1, h2, Option.getD]

/-- Witness for C9: primary times out, fallback succeeds, the call returns
the fallback's completion. -/
theorem c9_primary_then_single_fallback_witness :
    tryModels (fun m => if m = "sonar-pro" then Except.error "timeout" else Except.ok 7)
      = Except.ok 7 :=
  (c9_primary_then_single_fallback _).2.1 "timeout" 7 (by simp) (by simp)

/-! ### C3 — required-field validation of the collaborator reply
(analyze-results route)

The parsed object is checked field by field, each check throwing (and so
short-circuiting) when its condition fires:

  if (!r['Student Name'] && !r['studentName']) throw ...
  if (!r['Scores'] && !r['scores']) throw ...
  if (!r['Overall Readiness Index']) throw ...
  if (!r['Readiness Level']) throw ...
  if (!r['Strengths']) throw ...   if (!r['Gaps']) throw ...
  if (!r['Recommendations']) throw ...

Only the first two fields accept a lowerCamelCase fallback spelling. -/

/-- Truthiness of the value stored under key `k` (false when missing). -/
def truthyField (o : List (String × JVal)) (k : String) : Bool :=
  truthy (getField o k)

/-- The required-field validation of the analyze-results route, with the
route's error messages. -/
def validateLLMResult (o : List (String × JVal)) : Except String Unit :=
  if !truthyField o "Student Name" && !truthyField o "studentName" then
    .error "LLM response missing required field: Student Name"
  else if !truthyField o "Scores" && !truthyField o "scores" then
    .error "LLM response missing required field: Scores"
  else if !truthyField o "Overall Readiness Index" then
    .error "LLM response missing required field: Overall Readiness Index"
  else if !truthyField o "Readiness Level" then
    .error "LLM response missing required field: Readiness Level"
  else if !truthyField o "Strengths" then
    .error "LLM response missing required field: Strengths"
  else if !truthyField o "Gaps" then
    .error "LLM response missing required field: Gaps"
  else if !truthyField o "Recommendations" then
    .error "LLM response missing required field: Recommendations"
  else .ok ()

/-! ### C10 — render-time presence checks (generate-pdf route)

`generateHTMLContent` re-validates the record before templating:

  const studentName = results['Student Name'] || results.studentName;
  if (!studentName) throw ...
  const scoresRaw = results.scores || results.Scores || results['Scores'];
  if (!scoresRaw) throw ...
  const overallIndex = results['Overall Readiness Index'] || results.overallIndex;
  if (overallIndex === undefined) throw ...
  const readinessLevel = results['Readiness Level'] || results.readinessLevel;
  if (!readinessLevel) throw ...
  const strengths = results.Strengths; if (!strengths) throw ...
  const gaps = results.Gaps; if (!gaps) throw ...
  const recommendations = results.Recommendations; if (!recommendations) throw ...
-/

/-- The values that survive the render-time checks and are interpolated
into the document. -/
structure RenderData where
  overallIndex : JVal
  readinessLevel : JVal

/-- The validation chain of `generateHTMLContent`, with the route's error
messages; on success it yields the index and tier values that get
rendered. -/
def generateHTMLChecks (o : List (String × JVal)) : Except String RenderData :=
  let studentName := jsOr (getField o "Student Name") (getField o "studentName")
  if !truthy studentName then .error "Student Name is required"
  else
    let scoresRaw := jsOr (jsOr (getField o "scores") (getField o "Scores")) (getField o "Scores")
    if !truthy scoresRaw then .error "Scores data is required"
    else
      let overallIndex := jsOr (getField o "Overall Readiness Index") (getField o "overallIndex")
      if isUndefined overallIndex then .error "Overall Readiness Index is required"
      else
        let readinessLevel := jsOr (getField o "Readiness Level") (getField o "readinessLevel")
        if !truthy readinessLevel then .error "Readiness Level is required"
        else
          if !truthy (getField o "Strengths") then .error "Strengths analysis is required"
          else if !truthy (getField o "Gaps") then .error "Gaps analysis is required"
          else if !truthy (getField o "Recommendations") then .error "Recommendations are required"
          else .ok ⟨overallIndex, readinessLevel⟩

/-! ## Theorems for C3 and C10 -/

/-- Claim C3 counterexample: a reply carrying all seven required fields,
with the overall index present only under the lowerCamelCase spelling
`overallIndex`, is rejected naming "Overall Readiness Index" — the
validator accepts the fallback spelling only for the subject name and the
score mapping, not for the other five fields. -/
theorem c3_counterexample_fallback_spelling :
    validateLLMResult
      [("studentName", .jstr "Asha"),
       ("scores", .jobj [("Financial Planning", .jnum 80)]),
       ("overallIndex", .jnum 75),
       ("Readiness Level", .jstr "Good"),
       ("Strengths", .jstr "strong budgeting"),
       ("Gaps", .jstr "test prep"),
       ("Recommendations", .jstr "enroll in coaching")]
      = .error "LLM response missing required field: Overall Readiness Index" := rfl

/-- Claim C3 (amended): the validator accepts a reply exactly when the
subject name and the score mapping are present (truthy) under either of
their two spellings AND each of the remaining five fields — overall index,
tier label, strengths, gaps, recommendations — is present under its
canonical capitalized spelling only; when the subject name is missing
under both spellings it short-circuits with the error naming that field. -/
theorem c3_two_spellings_only_for_name_and_scores (o : List (String × JVal)) :
    (validateLLMResult o = .ok () ↔
      (truthyField o "Student Name" || truthyField o "studentName") = true ∧
      (truthyField o "Scores" || truthyField o "scores") = true ∧
      truthyField o "Overall Readiness Index" = true ∧
      truthyField o "Readiness Level" = true ∧
      truthyField o "Strengths" = true ∧
      truthyField o "Gaps" = true ∧
      truthyField o "Recommendations" = true) ∧
    (truthyField o "Student Name" = false → truthyField o "studentName" = false →
      validateLLMResult o = .error "LLM response missing required field: Student Name") := by
  constructor
  · unfold validateLLMResult
    repeat' split
    all_goals rename_i h
    all_goals simp_all
    constructor
    · rcases Bool.dichotomy (truthyField o "Student Name") with hb | hb
      · exact Or.inr (by simp_all)
      · exact Or.inl hb
    · rcases Bool.dichotomy (truthyField o "Scores") with hb | hb
      · exact Or.inr (by simp_all)
      · exact Or.inl hb
  · intro h1 h2
    unfold validateLLMResult
    simp [h1, h2]

/-- Witness for C3 (amended): the empty reply is rejected naming the
subject-name field. -/
theorem c3_two_spellings_only_for_name_and_scores_witness :
    validateLLMResult [] = .error "LLM response missing required field: Student Name" :=
  (c3_two_spellings_only_for_name_and_scores []).2 rfl rfl

/-- Claim C10 counterexample: a record whose Overall Readiness Index is
present and equal to 0 under the lowerCamelCase key passes every
render-time check (the guard is a strict undefined comparison on the
result of the falsy-skipping lookup chain), so an index of 0 IS rendered. -/
theorem c10_counterexample_zero_index_renders :
    generateHTMLChecks
      [("Student Name", .jstr "Asha"),
       ("Scores", .jobj [("Financial Planning", .jnum 80)]),
       ("overallIndex", .jnum 0),
       ("Readiness Level", .jstr "Good"),
       ("Strengths", .jstr "strong budgeting"),
       ("Gaps", .jstr "test prep"),
       ("Recommendations", .jstr "enroll in coaching")]
      = .ok ⟨.jnum 0, .jstr "Good"⟩ := rfl

/-- Claim C10 (amended): the lookup chain discards a falsy canonical
value, so an index of 0 stored under the canonical key alone is rejected
as missing; a tier label that is the empty string under both spellings is
always rejected; but an index of 0 stored under the lowerCamelCase key
survives the strict undefined guard and is rendered. -/
theorem c10_falsy_presence_checks (o : List (String × JVal)) :
    (truthy (jsOr (getField o "Student Name") (getField o "studentName")) = true →
     truthy (jsOr (jsOr (getField o "scores") (getField o "Scores")) (getField o "Scores")) = true →
     getField o "Overall Readiness Index" = .jnum 0 →
     getField o "overallIndex" = .jundefined →
     generateHTMLChecks o = .error "Overall Readiness Index is required") ∧
    (truthy (jsOr (getField o "Student Name") (getField o "studentName")) = true →
     truthy (jsOr (jsOr (getField o "scores") (getField o "Scores")) (getField o "Scores")) = true →
     isUndefined (jsOr (getField o "Overall Readiness Index") (getField o "overallIndex")) = false →
     getField o "Readiness Level" = .jstr "" →
     getField o "readinessLevel" = .jstr "" →
     generateHTMLChecks o = .error "Readiness Level is required") := by
  constructor
  · intro h1 h2 h3 h4
    unfold generateHTMLChecks
    simp only [h1, h2, h3, h4, Bool.not_true, if_false]
    simp [jsOr, truthy, isUndefined]
  · intro h1 h2 h3 h4 h5
    unfold generateHTMLChecks
    simp only [h1, h2, h4, h5, Bool.not_true, if_false]
    simp_all [jsOr, truthy, isUndefined]

/-- Witness for C10 (amended): an index equal to 0 present only under the
canonical key is rejected as missing. -/
theorem c10_falsy_presence_checks_witness :
    generateHTMLChecks
      [("Student Name", .jstr "Asha"),
       ("Scores", .jobj []),
       ("Overall Readiness Index", .jnum 0)]
      = .error "Overall Readiness Index is required" :=
  (c10_falsy_presence_checks _).1 rfl rfl rfl rfl

/-! ### C4 — JSON extraction from the collaborator reply -/

def isJsonWs (c : Char) : Bool := c = ' ' || c = '\t' || c = '\n' || c = '\r'

def skipJsonWs (cs : List Char) : List Char := cs.dropWhile isJsonWs

def digitsToNat (ds : List Char) : Nat :=
  ds.foldl (fun n c => n * 10 + (c.toNat - 48)) 0

def takeDigits (cs : List Char) : List Char × List Char :=
  (cs.takeWhile Char.isDigit, cs.dropWhile Char.isDigit)

def parseIntPart (cs : List Char) : Option (Nat × List Char) :=
  match cs with
  | '0' :: rest => some (0, rest)
  | c :: _ =>
    if c.isDigit then
      let p := takeDigits cs
      some (digitsToNat p.1, p.2)
    else none
  | [] => none

def applySign (neg : Bool) (q : ℚ) : ℚ := if neg then -q else q

def parseNumber (cs : List Char) : Option (ℚ × List Char) :=
  let p := match cs with
    | '-' :: r => (true, r)
    | _ => (false, cs)
  match parseIntPart p.2 with
  | none => none
  | some (ip, cs2) =>
    let fr : Option (Nat × Nat × List Char) := match cs2 with
      | '.' :: r =>
        match takeDigits r with
        | ([], _) => none
        | (ds, rest) => some (digitsToNat ds, 10 ^ ds.length, rest)
      | _ => some (0, 1, cs2)
    match fr with
    | none => none
    | some (fn, fd, cs3) =>
      let mantissa : ℚ := (ip : ℚ) + (fn : ℚ) / (fd : ℚ)
      match cs3 with
      | c :: r =>
        if c = 'e' || c = 'E' then
          let ep : Int × List Char := match r with
            | '+' :: rr => (1, rr)
            | '-' :: rr => (-1, rr)
            | _ => (1, r)
          match takeDigits ep.2 with
          | ([], _) => none
          | (ds, rest) => some (applySign p.1 (mantissa * (10 : ℚ) ^ (ep.1 * (digitsToNat ds : Int))), rest)
        else some (applySign p.1 mantissa, cs3)
      | [] => some (applySign p.1 mantissa, [])

def hexVal (c : Char) : Option Nat :=
  if c.isDigit then some (c.toNat - 48)
  else if 'a' ≤ c ∧ c ≤ 'f' then some (c.toNat - 87)
  else if 'A' ≤ c ∧ c ≤ 'F' then some (c.toNat - 55)
  else none

def decodeEscape (e : Char) (r2 : List Char) : Option (Char × List Char) :=
  if e = '"' then some ('"', r2)
  else if e = '\\' then some ('\\', r2)
  else if e = '/' then some ('/', r2)
  else if e = 'b' then some (Char.ofNat 8, r2)
  else if e = 'f' then some (Char.ofNat 12, r2)
  else if e = 'n' then some ('\n', r2)
  else if e = 'r' then some ('\r', r2)
  else if e = 't' then some ('\t', r2)
  else if e = 'u' then
    match r2 with
    | h1 :: h2 :: h3 :: h4 :: r3 =>
      match hexVal h1, hexVal h2, hexVal h3, hexVal h4 with
      | some a, some b, some c, some d => some (Char.ofNat (((a * 16 + b) * 16 + c) * 16 + d), r3)
      | _, _, _, _ => none
    | _ => none
  else none

def parseStringBody : Nat → List Char → Option (List Char × List Char)
  | 0, _ => none
  | _, [] => none
  | fuel + 1, c :: rest =>
    if c = '"' then some ([], rest)
    else if c = '\\' then
      match rest with
      | [] => none
      | e :: r2 =>
        match decodeEscape e r2 with
        | some (ch, r3) =>
          match parseStringBody fuel r3 with
          | some (cs, rest2) => some (ch :: cs, rest2)
          | none => none
        | none => none
    else if c.toNat < 32 then none
    else
      match parseStringBody fuel rest with
      | some (cs, rest2) => some (c :: cs, rest2)
      | none => none

mutual

def parseJValue : Nat → List Char → Option (JVal × List Char)
  | 0, _ => none
  | fuel + 1, cs =>
    match skipJsonWs cs with
    | 'n' :: 'u' :: 'l' :: 'l' :: rest => some (.jnull, rest)
    | 't' :: 'r' :: 'u' :: 'e' :: rest => some (.jbool true, rest)
    | 'f' :: 'a' :: 'l' :: 's' :: 'e' :: rest => some (.jbool false, rest)
    | '"' :: rest =>
      match parseStringBody (rest.length + 1) rest with
      | some (body, rest2) => some (.jstr ⟨body⟩, rest2)
      | none => none
    | '[' :: rest =>
      match skipJsonWs rest with
      | ']' :: rest2 => some (.jarr [], rest2)
      | cs2 =>
        match parseElems fuel cs2 with
        | some (vs, rest2) => some (.jarr vs, rest2)
        | none => none
    | '\x7b' :: rest =>
      match skipJsonWs rest with
      | '\x7d' :: rest2 => some (.jobj [], rest2)
      | cs2 =>
        match parseMembers fuel cs2 with
        | some (fs, rest2) => some (.jobj fs, rest2)
        | none => none
    | other =>
      match parseNumber other with
      | some (q, rest) => some (.jnum q, rest)
      | none => none

def parseElems : Nat → List Char → Option (List JVal × List Char)
  | 0, _ => none
  | fuel + 1, cs =>
    match parseJValue fuel cs with
    | none => none
    | some (v, rest) =>
      match skipJsonWs rest with
      | ',' :: rest2 =>
        match parseElems fuel rest2 with
        | some (vs, rest3) => some (v :: vs, rest3)
        | none => none
      | ']' :: rest2 => some ([v], rest2)
      | _ => none

def parseMembers : Nat → List Char → Option (List (String × JVal) × List Char)
  | 0, _ => none
  | fuel + 1, cs =>
    match skipJsonWs cs with
    | '"' :: rest =>
      match parseStringBody (rest.length + 1) rest with
      | none => none
      | some (key, rest2) =>
        match skipJsonWs rest2 with
        | ':' :: rest3 =>
          match parseJValue fuel rest3 with
          | none => none
          | some (v, rest4) =>
            match skipJsonWs rest4 with
            | ',' :: rest5 =>
              match parseMembers fuel rest5 with
              | some (fs, rest6) => some ((⟨key⟩, v) :: fs, rest6)
              | none => none
            | '\x7d' :: rest5 => some ([(⟨key⟩, v)], rest5)
            | _ => none
        | _ => none
    | _ => none

end

def parseJson (s : String) : Option JVal :=
  match parseJValue (s.length + 1) s.data with
  | some (v, rest) => if (skipJsonWs rest).isEmpty then some v else none
  | none => none

example : parseJson "\x7boops\x7d" = none := rfl
example : parseJson "\x7b\"Readiness Level\": \"Good\"\x7d" = some (.jobj [("Readiness Level", .jstr "Good")]) := rfl

/-- The prefix of `cs` up to and including its LAST closing brace, or none
when `cs` has no closing brace. -/
def upToLastBrace : List Char → Option (List Char)
  | [] => none
  | c :: rest =>
    match upToLastBrace rest with
    | some p => some (c :: p)
    | none => if c = '\x7d' then some [c] else none

/-- The span matched by the greedy regex: from the FIRST opening brace to
the LAST closing brace after it; none when no such pair exists. -/
def regexSpan : List Char → Option (List Char)
  | [] => none
  | c :: rest =>
    if c = '\x7b' then
      match upToLastBrace rest with
      | some p => some (c :: p)
      | none => none
    else regexSpan rest

/-- Whether the text contains an opening brace followed (strictly later)
by a closing brace — exactly the condition for the regex to match. -/
def hasBracePair : List Char → Bool
  | [] => false
  | c :: rest => ((c = '\x7b') && rest.contains '\x7d') || hasBracePair rest

/-- The extraction-and-parse pipeline of the analyze-results route.  When
the regex finds no span the route throws the message below; when the span
exists but JSON.parse rejects it, JSON.parse throws its own SyntaxError
(modelled here by a distinct message). -/
def extractAndParse (text : String) : Except String JVal :=
  match regexSpan text.data with
  | none => .error "No JSON found in LLM response"
  | some span =>
    match parseJson ⟨span⟩ with
    | some v => .ok v
    | none => .error "SyntaxError: JSON.parse"

theorem upToLastBrace_isSome (cs : List Char) :
    (upToLastBrace cs).isSome = cs.contains '\x7d' := by
  induction cs with
  | nil => rfl
  | cons c rest ih =>
    rw [upToLastBrace]
    cases hu : upToLastBrace rest with
    | some p => simp_all [List.contains_cons, eq_comm]
    | none =>
      by_cases h : c = '\x7d' <;> simp_all [List.contains_cons, eq_comm]

theorem hasBracePair_contains (cs : List Char) (h : hasBracePair cs = true) :
    cs.contains '\x7d' = true := by
  induction cs with
  | nil => simp [hasBracePair] at h
  | cons c rest ih =>
    rw [hasBracePair] at h
    rw [List.contains_cons]
    rcases Bool.or_eq_true_iff.mp h with h1 | h2
    · rw [((Bool.and_eq_true _ _).mp h1).2, Bool.or_true]
    · rw [ih h2, Bool.or_true]

theorem regexSpan_isSome (cs : List Char) :
    (regexSpan cs).isSome = hasBracePair cs := by
  induction cs with
  | nil => rfl
  | cons c rest ih =>
    rw [regexSpan, hasBracePair]
    by_cases h : c = '\x7b'
    · have hub := upToLastBrace_isSome rest
      cases hu : upToLastBrace rest with
      | some p =>
        rw [hu] at hub
        simp only [Option.isSome_some, eq_comm] at hub
        simp [h, hu, hub]
      | none =>
        rw [hu] at hub
        simp only [Option.isSome_none] at hub
        cases hb : hasBracePair rest
        · rw [← hub]
          simp
          exact fun hc => absurd h hc
        · exact absurd (hasBracePair_contains rest hb) (by rw [← hub]; simp)
    · rw [if_neg h, ih]
      simp [h]

/-- Claim C4 counterexample: the reply "\x7boops\x7d" contains a span from
the first opening to the last closing brace, but that span is not valid
JSON; the claim says this situation fails with NoJsonFound, yet the code
only raises its no-JSON error when the regex finds NO span at all — here
the failure is JSON.parse's own SyntaxError instead. -/
theorem c4_counterexample_parse_error_not_nojson :
    extractAndParse "\x7boops\x7d" = .error "SyntaxError: JSON.parse" ∧
    parseJson "\x7boops\x7d" = none :=
  ⟨rfl, rfl⟩

/-- Claim C4 (amended): extraction selects the span from the first opening
brace to the last closing brace and parses it; the NoJsonFound failure
occurs exactly when the text contains no opening brace followed by a
closing brace (a span that exists but fails to parse surfaces the JSON
parser's own error instead).  In particular prose followed by one
well-formed JSON object extracts successfully, and a response with no
opening brace at all fails with NoJsonFound. -/
theorem c4_nojson_iff_no_brace_pair (text : String) :
    (extractAndParse text = .error "No JSON found in LLM response" ↔
      hasBracePair text.data = false) ∧
    extractAndParse "Sure, here is the report: \x7b\"Readiness Level\": \"Good\"\x7d"
      = .ok (.jobj [("Readiness Level", .jstr "Good")]) ∧
    extractAndParse "no braces at all" = .error "No JSON found in LLM response" := by
  refine ⟨?_, rfl, rfl⟩
  constructor
  · intro h
    cases hs : regexSpan text.data with
    | none =>
      have := regexSpan_isSome text.data
      rw [hs] at this
      simpa using this.symm
    | some span =>
      exfalso
      rw [extractAndParse, hs] at h
      cases hp : parseJson ⟨span⟩ <;> simp [hp] at h
  · intro h
    have := regexSpan_isSome text.data
    rw [h] at this
    rw [extractAndParse]
    cases hs : regexSpan text.data with
    | none => rfl
    | some span => rw [hs] at this; simp at this
